import Mathlib

/-!
Verification of the `cmd57` device driver (`scpi/devices/cmd57.py`) of the
`python-scpi` repository, against its natural-language specification.

The driver formats SCPI command strings (`"%d"`, `"%f"`, `"%.1f"`, `"%.2f"`,
`"%s"` substitutions, `ON`/`OFF` booleans and comma-joined float lists),
manages the engine's `command_timeout`, switches instrument test modes, and
bootstraps an RS232 connection with a two-phase baud-rate sequence.

Numeric values are modelled as rationals; the C-style fixed-point rendering
`"%.kf"` is modelled as decimal rounding (half to even, as IEEE printf does
on the represented value) of the rational scaled by `10^k`, computed on the
numerator and denominator so everything is kernel-executable.

The generic engine (`scpi_device`, its `ask_*` reply parsers) is not part of
the visible sources; the reply parsers used by round-trip claims are
modelled from the spec and are marked as such in their doc comments.
-/

/-! ## Decimal digit strings -/

/-- Numeric value of a decimal digit character, `none` on a non-digit. -/
def digitVal (c : Char) : Option ℕ :=
  if c.isDigit then some (c.toNat - '0'.toNat) else none

/-- Value of a string of decimal digit characters, accumulated onto `a`;
`none` as soon as a non-digit occurs. -/
def digitsValAux : ℕ → List Char → Option ℕ
  | a, [] => some a
  | a, c :: cs =>
    match digitVal c with
    | some d => digitsValAux (10 * a + d) cs
    | none => none

/-- Fuelled decimal rendering of a natural number, most significant digit
first.  The fuel only drives termination; `natDigits` supplies enough. -/
def natDigitsGo : ℕ → ℕ → List Char
  | 0, _ => []
  | fuel + 1, n =>
    if n < 10 then [Nat.digitChar n]
    else natDigitsGo fuel (n / 10) ++ [Nat.digitChar (n % 10)]

/-- Decimal rendering of a natural number (the `%d` body). -/
def natDigits (n : ℕ) : List Char := natDigitsGo (n + 1) n

/-- Exactly `k` decimal digits of `m < 10^k`, zero padded on the left
(the fractional part of a `%.kf` rendering). -/
def fracDigitsList : ℕ → ℕ → List Char
  | 0, _ => []
  | k + 1, m => fracDigitsList k (m / 10) ++ [Nat.digitChar (m % 10)]

/-! ## Fixed-point rendering of rationals (the `%d` / `%.kf` substitutions) -/

/-- Round `num / den` (a nonnegative fraction) to the nearest natural
number, ties to even — the rounding printf applies to the value. -/
def rheDiv (num den : ℕ) : ℕ :=
  let f := num / den
  let r := num % den
  if den < 2 * r then f + 1
  else if 2 * r < den then f
  else if f % 2 = 0 then f else f + 1

/-- Characters of the C-style `"%d"` rendering of an integer. -/
def formatIntC (i : ℤ) : List Char :=
  (if i < 0 then ['-'] else []) ++ natDigits i.natAbs

/-- Characters of the C-style `"%.kf"` fixed-point rendering of a rational:
sign, integer digits, `'.'`, then exactly `k` fractional digits of the
value rounded at `k` decimal places.  Computed from the numerator and
denominator so it evaluates by `decide`. -/
def formatFloatC (k : ℕ) (q : ℚ) : List Char :=
  let m := rheDiv (q.num.natAbs * 10 ^ k) q.den
  (if q.num < 0 then ['-'] else []) ++
    natDigits (m / 10 ^ k) ++ '.' :: fracDigitsList k (m % 10 ^ k)

/-- String form of `"%d" % i`. -/
def formatInt (i : ℤ) : String := ⟨formatIntC i⟩

/-- String form of `"%f" % q` (six decimal places). -/
def formatFloat6 (q : ℚ) : String := ⟨formatFloatC 6 q⟩

/-- String form of `"%.2f" % q`. -/
def formatFloat2 (q : ℚ) : String := ⟨formatFloatC 2 q⟩

/-- String form of `"%.1f" % q`. -/
def formatFloat1 (q : ℚ) : String := ⟨formatFloatC 1 q⟩

/-! ## Driver formatting helpers (`cmd57.py` top of file) -/

/-- Characters of Python's `",".join(parts)`. -/
def joinCommaC : List (List Char) → List Char
  | [] => []
  | [s] => s
  | s :: rest => s ++ ',' :: joinCommaC rest

/-- Source `_format_float_list`: `",".join(["%.2f" % x for x in val_list])`. -/
def _format_float_list (val_list : List ℚ) : String :=
  ⟨joinCommaC (val_list.map (formatFloatC 2))⟩

/-- Source `_format_onoff`: `"ON" if val else "OFF"`. -/
def _format_onoff (val : Bool) : String :=
  if val then "ON" else "OFF"

/-! ## Reply parsers

The generic engine (`scpi_device.ask_bool`, `ask_float_list`, …) is not in
the visible sources; the parsers below are modelled from the spec. -/

/-- Splitting a character list at a separator, Python `str.split` style:
`n` separators always yield `n+1` fields, possibly empty. -/
def splitOnCharC (sep : Char) : List Char → List (List Char)
  | [] => [[]]
  | c :: cs =>
    if c = sep then [] :: splitOnCharC sep cs
    else
      match splitOnCharC sep cs with
      | x :: xs => (c :: x) :: xs
      | [] => [[c]]

/-- Modelled from the spec: the engine's float reply parser on an unsigned
decimal literal — "numeric parse; malformed text is a ParseError". -/
def parseUFloatC (l : List Char) : Option ℚ :=
  match splitOnCharC '.' l with
  | [ip] => if ip = [] then none else (digitsValAux 0 ip).map (fun n => (n : ℚ))
  | [ip, fp] =>
    if ip = [] ∨ fp = [] then none
    else
      match digitsValAux 0 ip, digitsValAux 0 fp with
      | some i, some f => some ((i : ℚ) + (f : ℚ) / (10 : ℚ) ^ fp.length)
      | _, _ => none
  | _ => none

/-- Modelled from the spec: the engine's float reply parser (sign plus
unsigned decimal literal). -/
def parseFloatC (l : List Char) : Option ℚ :=
  if l.head? = some '-' then (parseUFloatC l.tail).map (fun q => -q)
  else parseUFloatC l

/-- Parse every field of a comma-split reply; any bad field fails the list. -/
def parseAllFloats : List (List Char) → Option (List ℚ)
  | [] => some []
  | x :: xs =>
    match parseFloatC x, parseAllFloats xs with
    | some v, some vs => some (v :: vs)
    | _, _ => none

/-- Modelled from the spec: the engine's list reply parser (`ask_float_list`):
"split reply on commas, parse each field; empty reply yields an empty
sequence, not an error". -/
def parse_float_list (s : String) : Option (List ℚ) :=
  if s.data = [] then some []
  else parseAllFloats (splitOnCharC ',' s.data)

/-- Modelled from the spec: the engine's boolean reply parser (`ask_bool`):
`ON` is true, `OFF` is false, any other token is a parse error. -/
def parse_bool (s : String) : Option Bool :=
  if s = "ON" then some true else if s = "OFF" then some false else none

/-! ## Engine configuration and `set_timeout` (`cmd57.__init__`, `cmd57.set_timeout`) -/

/-- Engine configuration owned by a device connection (the driver's
`self.scpi` attributes used by `cmd57`): the command timeout and the
default wait before issuing a query. -/
structure ScpiState where
  command_timeout : ℚ
  ask_default_wait : ℚ
deriving DecidableEq

/-- Source `cmd57.__init__`: sets `command_timeout = 60` seconds and
`ask_default_wait = 0` seconds on the engine state. -/
def cmd57_init (s : ScpiState) : ScpiState :=
  { s with command_timeout := 60, ask_default_wait := 0 }

/-- Source `cmd57.set_timeout`: reads the old `command_timeout`, stores
the new one, returns the old one. -/
def set_timeout (s : ScpiState) (command_timeout : ℚ) : ℚ × ScpiState :=
  (s.command_timeout, { s with command_timeout := command_timeout })

/-! ## Command strings built by the driver's `set_` and action methods -/

/-- Source `set_ber_unused_ts_power`: `val = "OFF" if power is None else
"%.1f" % power`, then `"CONF:BER:POWer:UNUSed %s" % val`. -/
def set_ber_unused_ts_power (power : Option ℚ) : String :=
  let val : String :=
    match power with
    | none => "OFF"
    | some p => formatFloat1 p
  "CONF:BER:POWer:UNUSed " ++ val

/-- Source `set_io_used`: `"ROUTe:IOConnector %s" % io`. -/
def set_io_used_cmd (io : String) : String := "ROUTe:IOConnector " ++ io

/-- Source `set_network_type`: `"CONFigure:NETWork:TYPE %s" % net`. -/
def set_network_type_cmd (net : String) : String := "CONFigure:NETWork:TYPE " ++ net

/-- Source `set_ext_att_rf_in1`: `"SENSe1:CORRection:LOSS %f" % att`. -/
def set_ext_att_rf_in1_cmd (att : ℚ) : String := "SENSe1:CORRection:LOSS " ++ formatFloat6 att

/-- Source `set_ext_att_rf_out1`: `"SOURce1:CORRection:LOSS %f" % att`. -/
def set_ext_att_rf_out1_cmd (att : ℚ) : String := "SOURce1:CORRection:LOSS " ++ formatFloat6 att

/-- Source `set_ext_att_rf_in2`: `"SENSe2:CORRection:LOSS %f" % att`. -/
def set_ext_att_rf_in2_cmd (att : ℚ) : String := "SENSe2:CORRection:LOSS " ++ formatFloat6 att

/-- Source `set_ext_att_rf_out2`: `"SOURce2:CORRection:LOSS %f" % att`. -/
def set_ext_att_rf_out2_cmd (att : ℚ) : String := "SOURce2:CORRection:LOSS " ++ formatFloat6 att

/-- Source `set_bts_ccch_arfcn`: `"CONF:CHAN:BTS:CCCH:ARFCN %d" % int(arfcn)`. -/
def set_bts_ccch_arfcn_cmd (arfcn : ℤ) : String := "CONF:CHAN:BTS:CCCH:ARFCN " ++ formatInt arfcn

/-- Source `set_bts_tch_arfcn`: `"CONF:CHAN:BTS:TCH:ARFCN %d" % int(arfcn)`. -/
def set_bts_tch_arfcn_cmd (arfcn : ℤ) : String := "CONF:CHAN:BTS:TCH:ARFCN " ++ formatInt arfcn

/-- Source `set_bts_tch_ts`: `"CONF:CHAN:BTS:TCH:SLOT %d" % int(slot)`. -/
def set_bts_tch_ts_cmd (slot : ℤ) : String := "CONF:CHAN:BTS:TCH:SLOT " ++ formatInt slot

/-- Source `set_bts_tsc`: `"CONF:CHAN:BTS:TSC %d" % int(tsc)`. -/
def set_bts_tsc_cmd (tsc : ℤ) : String := "CONF:CHAN:BTS:TSC " ++ formatInt tsc

/-- Source `set_bts_expected_power`: `"CONF:BTS:POWer:EXPected %.2f" % float(power)`. -/
def set_bts_expected_power_cmd (power : ℚ) : String := "CONF:BTS:POWer:EXPected " ++ formatFloat2 power

/-- Source `set_bts_tch_tx_power`: `"CONF:CHANnel:BTS %.2f" % float(power)`. -/
def set_bts_tch_tx_power_cmd (power : ℚ) : String := "CONF:CHANnel:BTS " ++ formatFloat2 power

/-- Source `set_bts_tch_mode`: `"CONF:SPEech:MODE %s" % str(mode)`. -/
def set_bts_tch_mode_cmd (mode : String) : String := "CONF:SPEech:MODE " ++ mode

/-- Source `set_bts_tch_timing`: `"CONF:BTS:TRANsmit:TIMing %d" % int(ta)`. -/
def set_bts_tch_timing_cmd (ta : ℤ) : String := "CONF:BTS:TRANsmit:TIMing " ++ formatInt ta

/-- Source `set_bts_tch_input_bandwidth`: `"PROCedure:SET:POWer:BANDwidth:INPut %s" % str(bw)`. -/
def set_bts_tch_input_bandwidth_cmd (bw : String) : String :=
  "PROCedure:SET:POWer:BANDwidth:INPut " ++ bw

/-- Source `set_ban_arfcn`: `"CONF:CHAN:BANalysis:ARFCn %d" % int(arfcn)`. -/
def set_ban_arfcn_cmd (arfcn : ℤ) : String := "CONF:CHAN:BANalysis:ARFCn " ++ formatInt arfcn

/-- Source `set_mod_freq`: `"CONF:CHAN:MODalysis:ARFCn:FREQ %f" % float(freq)`. -/
def set_mod_freq_cmd (freq : ℚ) : String := "CONF:CHAN:MODalysis:ARFCn:FREQ " ++ formatFloat6 freq

/-- Source `set_ban_tsc`: `"CONF:CHAN:BANalysis:TSC %d" % int(tsc)`. -/
def set_ban_tsc_cmd (tsc : ℤ) : String := "CONF:CHAN:BANalysis:TSC " ++ formatInt tsc

/-- Source `set_ban_expected_power`: `"CONF:BANalysis:POWer:EXPected %f" % float(pwr)`. -/
def set_ban_expected_power_cmd (pwr : ℚ) : String :=
  "CONF:BANalysis:POWer:EXPected " ++ formatFloat6 pwr

/-- Source `set_ban_input_bandwidth`: `"CONF:BANalysis:POWer:BANDwidth:INPut1 %s" % band`. -/
def set_ban_input_bandwidth_cmd (band : String) : String :=
  "CONF:BANalysis:POWer:BANDwidth:INPut1 " ++ band

/-- Source `set_ban_trigger_mode`: `"CONF:BANalysis:TRIGger:MODE %s" % mode`. -/
def set_ban_trigger_mode_cmd (mode : String) : String := "CONF:BANalysis:TRIGger:MODE " ++ mode

/-- Source `set_test_mode`: `"PROCedure:SEL %s" % str(mode)`. -/
def set_test_mode_cmd (mode : String) : String := "PROCedure:SEL " ++ mode

/-- Source `bcch_sync`: the constant directive `"PROCedure:SYNChronize"`. -/
def bcch_sync_cmd : String := "PROCedure:SYNChronize"

/-- Source `set_sync_state`: `"PROCedure:BTSState %s" % str(state)`. -/
def set_sync_state_cmd (state : String) : String := "PROCedure:BTSState " ++ state

/-- Source `set_ber_test_num`: `"CONF:BER:SEL BER%d" % test_num`. -/
def set_ber_test_num_cmd (test_num : ℤ) : String := "CONF:BER:SEL BER" ++ formatInt test_num

/-- Source `set_ber_limit_class_1b`: `"CALCulate:LIMit:BER:CLIB:MEVents %d" % limit`. -/
def set_ber_limit_class_1b_cmd (limit : ℤ) : String :=
  "CALCulate:LIMit:BER:CLIB:MEVents " ++ formatInt limit

/-- Source `set_ber_limit_class_2`: `"CALCulate:LIMit:BER:CLII:MEVents %d" % limit`. -/
def set_ber_limit_class_2_cmd (limit : ℤ) : String :=
  "CALCulate:LIMit:BER:CLII:MEVents " ++ formatInt limit

/-- Source `set_ber_limit_erased_frames`: `"CALCulate:LIMit:BER:EFRames:MEVents %d" % limit`. -/
def set_ber_limit_erased_frames_cmd (limit : ℤ) : String :=
  "CALCulate:LIMit:BER:EFRames:MEVents " ++ formatInt limit

/-- Source `set_ber_used_ts_power`: `"CONF:BER:POWer:USED %.1f" % power`. -/
def set_ber_used_ts_power_cmd (power : ℚ) : String := "CONF:BER:POWer:USED " ++ formatFloat1 power

/-- Source `set_ber_frames_num`: `"CONF:BER:FRAMestosend %d" % frames`. -/
def set_ber_frames_num_cmd (frames : ℤ) : String := "CONF:BER:FRAMestosend " ++ formatInt frames

/-- Source `set_ber_abort_cond`: `"CONF:BER:SCONdition %s" % cond`. -/
def set_ber_abort_cond_cmd (c : String) : String := "CONF:BER:SCONdition " ++ c

/-- Source `set_ber_holdoff_time`: `"CONF:BER:HOLDoff:TIME %.1f" % time`. -/
def set_ber_holdoff_time_cmd (t : ℚ) : String := "CONF:BER:HOLDoff:TIME " ++ formatFloat1 t

/-- Source `reset_spectrum_modulation_tolerance`: constant directive. -/
def reset_spectrum_modulation_tolerance_cmd : String :=
  "CALCulate:LIMit:SPECtrum:MODulation:CLEar"

/-- Source `reset_spectrum_switching_tolerance`: constant directive. -/
def reset_spectrum_switching_tolerance_cmd : String :=
  "CALCulate:LIMit:SPECtrum:SWITching:CLEar"

/-- Source `set_spectrum_modulation_tolerance_abs`: prefix plus
`_format_float_list(dbm_list)`. -/
def set_spectrum_modulation_tolerance_abs_cmd (dbm_list : List ℚ) : String :=
  "CALCulate:LIMit:SPECtrum:MODulation:ABSolute " ++ _format_float_list dbm_list

/-- Source `set_spectrum_modulation_tolerance_rel`: prefix plus
`_format_float_list(db_list)`. -/
def set_spectrum_modulation_tolerance_rel_cmd (db_list : List ℚ) : String :=
  "CALCulate:LIMit:SPECtrum:MODulation:RELative " ++ _format_float_list db_list

/-- Source `set_spectrum_switching_tolerance_abs`: prefix plus
`_format_float_list(dbm_list)`. -/
def set_spectrum_switching_tolerance_abs_cmd (dbm_list : List ℚ) : String :=
  "CALCulate:LIMit:SPECtrum:SWITching:ABSolute " ++ _format_float_list dbm_list

/-- Source `set_spectrum_switching_tolerance_rel`: prefix plus
`_format_float_list(db_list)`. -/
def set_spectrum_switching_tolerance_rel_cmd (db_list : List ℚ) : String :=
  "CALCulate:LIMit:SPECtrum:SWITching:RELative " ++ _format_float_list db_list

/-- Source `set_spectrum_modulation_burst_num`: `"CONF:SPECtrum:MODulation:AVERage %d" % num`. -/
def set_spectrum_modulation_burst_num_cmd (num : ℤ) : String :=
  "CONF:SPECtrum:MODulation:AVERage " ++ formatInt num

/-- Source `set_spectrum_switching_burst_num`: `"CONF:SPECtrum:SWITching:AVERage %d" % num`. -/
def set_spectrum_switching_burst_num_cmd (num : ℤ) : String :=
  "CONF:SPECtrum:SWITching:AVERage " ++ formatInt num

/-- Source `set_spectrum_switching_noise_corr`: prefix plus `_format_onoff(corr)`. -/
def set_spectrum_switching_noise_corr_cmd (corr : Bool) : String :=
  "CONF:SPECtrum:SWITching:NOISe:CORRection " ++ _format_onoff corr

/-- Source `set_phase_decoding_mode`: `"CONF:DECoding:MODE %s" % mode`. -/
def set_phase_decoding_mode_cmd (mode : String) : String := "CONF:DECoding:MODE " ++ mode

/-- Every query string passed to an `ask_*` engine operation by the
driver's `ask_` / `read_` / `fetch_` methods, verbatim from the source. -/
def askCommands : List String :=
  ["*OPT?",
   "CALC:LIMit:POWer:MATChing?",
   "CALCulate:LIMit:BER:CLIB:MEVents?",
   "CALCulate:LIMit:BER:CLII:MEVents?",
   "CALCulate:LIMit:BER:EFRames:MEVents?",
   "CALCulate:LIMit:PHFR:TOLerance:MATChing:AVERage?",
   "CALCulate:LIMit:PHFR:TOLerance:MATChing:MAXimum?",
   "CALCulate:LIMit:PHFR:TOLerance:MATChing?",
   "CALCulate:LIMit:SPECtrum:MODulation:ABSolute?",
   "CALCulate:LIMit:SPECtrum:MODulation:MATChing?",
   "CALCulate:LIMit:SPECtrum:MODulation:RELative?",
   "CALCulate:LIMit:SPECtrum:SWITching:ABSolute?",
   "CALCulate:LIMit:SPECtrum:SWITching:MATChing?",
   "CALCulate:LIMit:SPECtrum:SWITching:RELative?",
   "CONF:BANalysis:POWer:BANDwidth:INPut1?",
   "CONF:BANalysis:POWer:EXPected?",
   "CONF:BANalysis:TRIGger:MODE?",
   "CONF:BER:CLIB:MSAMples?",
   "CONF:BER:CLII:MSAMples?",
   "CONF:BER:EFRames:MSAMples?",
   "CONF:BER:FRAMestosend?",
   "CONF:BER:HOLDoff:TIME?",
   "CONF:BER:POWer:UNUSed?",
   "CONF:BER:POWer:USED?",
   "CONF:BER:SCONdition?",
   "CONF:BER:SEL?",
   "CONF:BER:TEST:TIME?",
   "CONF:BTS:POWer:EXPected?",
   "CONF:BTS:TRANsmit:TIMing?",
   "CONF:CHAN:BANalysis:ARFCn?",
   "CONF:CHAN:BANalysis:TSC?",
   "CONF:CHAN:BTS:CCCH:ARFCN?",
   "CONF:CHAN:BTS:TCH:ARFCN?",
   "CONF:CHAN:BTS:TCH:SLOT?",
   "CONF:CHAN:BTS:TSC?",
   "CONF:CHAN:MODalysis:ARFCn:FREQ?",
   "CONF:CHANnel:BTS?",
   "CONF:DECoding:MODE?",
   "CONF:SPECtrum:MODulation:AVERage?",
   "CONF:SPECtrum:SWITching:AVERage?",
   "CONF:SPECtrum:SWITching:NOISe:CORRection?",
   "CONF:SPEech:MODE?",
   "CONFigure:NETWork:TYPE?",
   "FETCh:ARRay:BURSt:PHASe:ERRor?",
   "FETCh:ARRay:BURSt:POWer?",
   "FETCh:ARRay:SPECtrum:BTS:SWITching?",
   "FETCh:ARRay:SPECtrum:MODulation?",
   "FETCh:BER:CLIB:BER?",
   "FETCh:BER:CLIB:EVENts?",
   "FETCh:BER:CLIB:RBER?",
   "FETCh:BER:CLII:BER?",
   "FETCh:BER:CLII:EVENts?",
   "FETCh:BER:CLII:RBER?",
   "FETCh:BER:CRC:ERRor?",
   "FETCh:BER:EFRames:EVENts?",
   "FETCh:BER:EFRames:FER?",
   "FETCh:BER:TRESult?",
   "FETCh:BURSt:FREQ:ERRor?",
   "FETCh:BURSt:PHASe:ERRor:PEAK?",
   "FETCh:BURSt:PHASe:ERRor:RMS?",
   "FETCh:BURSt:POWer:AVERage?",
   "FETCh:POWer?",
   "PROCedure:BTSState?",
   "PROCedure:SEL?",
   "PROCedure:SET:POWer:BANDwidth:INPut?",
   "READ:ARRay:BURSt:PHASe:ERRor?",
   "READ:ARRay:BURSt:POWer?",
   "READ:ARRay:SPECtrum:BTS:SWITching?",
   "READ:ARRay:SPECtrum:MODulation?",
   "READ:BER:CLIB:BER?",
   "READ:BER:CLIB:EVENts?",
   "READ:BER:CLIB:RBER?",
   "READ:BER:CLII:BER?",
   "READ:BER:CLII:EVENts?",
   "READ:BER:CLII:RBER?",
   "READ:BER:CRC:ERRor?",
   "READ:BER:EFRames:EVENts?",
   "READ:BER:EFRames:FER?",
   "READ:BER:TRESult?",
   "READ:BURSt:FREQ:ERRor?",
   "READ:BURSt:PHASe:ERRor:PEAK?",
   "READ:BURSt:PHASe:ERRor:RMS?",
   "READ:BURSt:POWer:AVERage?",
   "READ:POWer?",
   "ROUTe:IOConnector?",
   "SENSE:SIGN:BSIC?",
   "SENSE:SIGN:IDEN:MCC?",
   "SENSE:SIGN:IDEN:MNC?",
   "SENSe1:CORRection:LOSS?",
   "SENSe2:CORRection:LOSS?",
   "SOURce1:CORRection:LOSS?",
   "SOURce2:CORRection:LOSS?",
   "STATus:DEVice?"]

/-- A wire line is a query iff its last character is `'?'`. -/
def isQueryStr (s : String) : Prop := s.data.getLast? = some '?'

instance (s : String) : Decidable (isQueryStr s) := by
  unfold isQueryStr
  infer_instance

/-! ## `parse_io_str` and `make_io_str` -/

/-- Value of a decimal digit string as in Python's `int()` (restricted to
the unsigned digit form): empty input is an error. -/
def digitsToNat (l : List Char) : Option ℕ :=
  if l = [] then none else digitsValAux 0 l

/-- Python's `int()` on a string, restricted to an optional minus sign and
decimal digits: `none` models `ValueError`. -/
def pyInt (l : List Char) : Option ℤ :=
  if l.head? = some '-' then (digitsToNat l.tail).map (fun m => -(m : ℤ))
  else (digitsToNat l).map (fun m => (m : ℤ))

/-- Source `cmd57.parse_io_str`: `None` when the length is not 4, else
`[int(io[1:2]), int(io[3:4])]`; `int()` raising `ValueError` on a
non-numeric character is modelled as `Except.error`. -/
def parse_io_str (io : String) : Except Unit (Option (List ℤ)) :=
  if io.data.length ≠ 4 then Except.ok none
  else
    match pyInt ((io.data.drop 1).take 1), pyInt ((io.data.drop 3).take 1) with
    | some a, some b => Except.ok (some [a, b])
    | _, _ => Except.error ()

/-- Source `cmd57.make_io_str`: `None` unless both arguments are in
`[0, 1]`, else `"I%dO%d" % (in_num, out_num)`. -/
def make_io_str (in_num out_num : ℤ) : Option String :=
  if in_num ∉ ([0, 1] : List ℤ) ∨ out_num ∉ ([0, 1] : List ℤ) then none
  else some ("I" ++ formatInt in_num ++ "O" ++ formatInt out_num)

/-! ## `_switch_to_x` -/

/-- One engine operation issued by a driver method: a query or a directive. -/
inductive ScpiOp where
  | ask (cmd : String)
  | send (cmd : String)
deriving DecidableEq

/-- Source `cmd57._switch_to_x`, as the operation trace it produces when
the mode query returns `cur_mode`: it asks `PROCedure:SEL?`, then, only if
the reported mode differs from the target, sends `NONE` first (unless the
reported mode already is `NONE`) and the target mode last. -/
def switch_to_x_trace (cur_mode mode : String) : List ScpiOp :=
  ScpiOp.ask "PROCedure:SEL?" ::
    (if cur_mode ≠ mode then
      (if cur_mode ≠ "NONE" then [ScpiOp.send (set_test_mode_cmd "NONE")] else []) ++
        [ScpiOp.send (set_test_mode_cmd mode)]
    else [])

/-! ## The `rs232` connection helper -/

/-- One operation on the underlying pyserial port. -/
inductive SerialEvent where
  | openPort (baud : ℕ) (timeout : ℕ)
  | write (data : String)
  | closePort
deriving DecidableEq

/-- Source `rs232` helper, as the sequence of serial-port operations it
performs.  The function is straight-line — it never reads from the port
and never branches — so its trace is this fixed list. -/
def rs232Trace : List SerialEvent :=
  [SerialEvent.openPort 2400 0,
   SerialEvent.write "\n",
   SerialEvent.write ":SYSTem:COMMunicate:SERial:BAUD 9600\n",
   SerialEvent.closePort,
   SerialEvent.openPort 9600 0,
   SerialEvent.write "\n"]

/-- Possible outcomes of a connection bootstrap: a live transport at some
baud rate, or (per the spec's state machine) a negotiation failure. -/
inductive RS232Result where
  | transport (baud : ℕ)
  | negotiationFailed (cause : String)
deriving DecidableEq

/-- Source `rs232` helper's return value: the transport wrapping the port
opened at 9600 baud, unconditionally. -/
def rs232Result : RS232Result := RS232Result.transport 9600

/-- The data strings written by a trace, in order. -/
def writesOf (t : List SerialEvent) : List String :=
  t.filterMap (fun e =>
    match e with
    | SerialEvent.write s => some s
    | _ => none)

/-- Handle ids live after processing a trace: every `openPort` allocates a
fresh id, `closePort` releases the most recent one. -/
def liveHandlesGo : List SerialEvent → ℕ × List ℕ → ℕ × List ℕ
  | [], st => st
  | e :: rest, (next, hs) =>
    match e with
    | SerialEvent.openPort _ _ => liveHandlesGo rest (next + 1, next :: hs)
    | SerialEvent.closePort => liveHandlesGo rest (next, hs.drop 1)
    | SerialEvent.write _ => liveHandlesGo rest (next, hs)

/-- Handle ids live after a trace, starting from no open handles. -/
def liveHandles (t : List SerialEvent) : List ℕ := (liveHandlesGo t (0, [])).2

/-- Whether a bootstrap outcome is the negotiation-failure terminal. -/
def isNegotiationFailed : RS232Result → Bool
  | RS232Result.negotiationFailed _ => true
  | _ => false

/-! ## Properties -/

theorem digitVal_digitChar {d : ℕ} (h : d < 10) :
    digitVal (Nat.digitChar d) = some d := by
  interval_cases d <;> decide

theorem digitChar_mem_digits {d : ℕ} (h : d < 10) :
    Nat.digitChar d ∈ (['0', '1', '2', '3', '4', '5', '6', '7', '8', '9'] : List Char) := by
  interval_cases d <;> decide

theorem digitsValAux_append (a : ℕ) (l₁ l₂ : List Char) :
    digitsValAux a (l₁ ++ l₂) = (digitsValAux a l₁).bind (fun b => digitsValAux b l₂) := by
  induction l₁ generalizing a with
  | nil => simp [digitsValAux]
  | cons c cs ih =>
    simp only [List.cons_append, digitsValAux]
    cases digitVal c with
    | none => simp
    | some d => simp [ih]

theorem natDigitsGo_spec {fuel n : ℕ} (h : n < fuel) :
    (∀ a, digitsValAux a (natDigitsGo fuel n) =
      some (a * 10 ^ (natDigitsGo fuel n).length + n)) ∧
    (natDigitsGo fuel n).getLast? = some (Nat.digitChar (n % 10)) ∧
    natDigitsGo fuel n ≠ [] ∧
    (∀ c ∈ natDigitsGo fuel n, ∃ d, d < 10 ∧ c = Nat.digitChar d) := by
  induction fuel generalizing n with
  | zero => omega
  | succ fuel ih =>
    by_cases hn : n < 10
    · refine ⟨fun a => ?_, ?_, ?_, ?_⟩ <;>
        simp only [natDigitsGo, if_pos hn]
      · simp [digitsValAux, digitVal_digitChar hn, pow_one, Nat.mul_comm]
      · simp [Nat.mod_eq_of_lt hn]
      · simp
      · intro c hc
        simp only [List.mem_singleton] at hc
        exact ⟨n, hn, hc⟩
    · have hrec : n / 10 < fuel := by
        have h1 : n / 10 < n := Nat.div_lt_self (by omega) (by omega)
        omega
      obtain ⟨ihval, _, ihne, ihchar⟩ := ih hrec
      refine ⟨fun a => ?_, ?_, ?_, ?_⟩ <;>
        simp only [natDigitsGo, if_neg hn]
      · rw [digitsValAux_append, ihval a]
        simp only [Option.some_bind, digitsValAux,
          digitVal_digitChar (Nat.mod_lt n (by omega)), List.length_append,
          List.length_singleton, Option.some.injEq]
        rw [pow_succ, ← mul_assoc]
        generalize a * 10 ^ (natDigitsGo fuel (n / 10)).length = C
        omega
      · exact List.getLast?_concat _
      · simp
      · intro c hc
        rcases List.mem_append.mp hc with hc | hc
        · exact ihchar c hc
        · simp only [List.mem_singleton] at hc
          exact ⟨n % 10, Nat.mod_lt n (by omega), hc⟩

theorem digitsValAux_natDigits (n : ℕ) (a : ℕ) :
    digitsValAux a (natDigits n) = some (a * 10 ^ (natDigits n).length + n) :=
  (natDigitsGo_spec (Nat.lt_succ_self n)).1 a

theorem natDigits_val (n : ℕ) : digitsValAux 0 (natDigits n) = some n := by
  simpa using digitsValAux_natDigits n 0

theorem natDigits_getLast (n : ℕ) :
    (natDigits n).getLast? = some (Nat.digitChar (n % 10)) :=
  (natDigitsGo_spec (Nat.lt_succ_self n)).2.1

theorem natDigits_ne_nil (n : ℕ) : natDigits n ≠ [] :=
  (natDigitsGo_spec (Nat.lt_succ_self n)).2.2.1

theorem natDigits_chars (n : ℕ) :
    ∀ c ∈ natDigits n, ∃ d, d < 10 ∧ c = Nat.digitChar d :=
  (natDigitsGo_spec (Nat.lt_succ_self n)).2.2.2

theorem fracDigitsList_length (k m : ℕ) : (fracDigitsList k m).length = k := by
  induction k generalizing m with
  | zero => rfl
  | succ k ih => simp [fracDigitsList, ih]

theorem fracDigitsList_val {k m : ℕ} (h : m < 10 ^ k) (a : ℕ) :
    digitsValAux a (fracDigitsList k m) = some (a * 10 ^ k + m) := by
  induction k generalizing a m with
  | zero =>
    have : m = 0 := by omega
    simp [fracDigitsList, digitsValAux, this]
  | succ k ih =>
    have hdiv : m / 10 < 10 ^ k := by
      rw [Nat.div_lt_iff_lt_mul (by omega)]
      calc m < 10 ^ (k + 1) := h
        _ = 10 ^ k * 10 := by ring
    simp only [fracDigitsList]
    rw [digitsValAux_append, ih hdiv]
    simp only [Option.some_bind, digitsValAux,
      digitVal_digitChar (Nat.mod_lt m (by omega)), Option.some.injEq]
    rw [pow_succ, ← mul_assoc]
    generalize a * 10 ^ k = C
    omega

theorem fracDigitsList_getLast (k m : ℕ) :
    (fracDigitsList (k + 1) m).getLast? = some (Nat.digitChar (m % 10)) := by
  simp [fracDigitsList, List.getLast?_concat]

theorem fracDigitsList_chars (k m : ℕ) :
    ∀ c ∈ fracDigitsList k m, ∃ d, d < 10 ∧ c = Nat.digitChar d := by
  induction k generalizing m with
  | zero => simp [fracDigitsList]
  | succ k ih =>
    intro c hc
    simp only [fracDigitsList] at hc
    rcases List.mem_append.mp hc with hc | hc
    · exact ih _ c hc
    · simp only [List.mem_singleton] at hc
      exact ⟨m % 10, Nat.mod_lt m (by omega), hc⟩

theorem rheDiv_den_one (n : ℕ) : rheDiv n 1 = n := by
  simp [rheDiv, Nat.mod_one, Nat.div_one]

theorem formatFloatC_shape (k : ℕ) (q : ℚ) :
    ∃ sg id fd, formatFloatC k q = sg ++ id ++ '.' :: fd ∧
      (sg = [] ∨ sg = ['-']) ∧ id = natDigits (rheDiv (q.num.natAbs * 10 ^ k) q.den / 10 ^ k) ∧
      fd = fracDigitsList k (rheDiv (q.num.natAbs * 10 ^ k) q.den % 10 ^ k) := by
  refine ⟨if q.num < 0 then ['-'] else [], _, _, rfl, ?_, rfl, rfl⟩
  by_cases h : q.num < 0 <;> simp [h]

/-! ## Lemmas about digits, splitting and joining -/

theorem digitChar_props {d : ℕ} (h : d < 10) :
    Nat.digitChar d ≠ '.' ∧ Nat.digitChar d ≠ ',' ∧ Nat.digitChar d ≠ '-' ∧
      Nat.digitChar d ≠ '?' ∧ Nat.digitChar d ≠ 'F' ∧
      (Nat.digitChar d).isDigit = true := by
  interval_cases d <;> decide

theorem splitOnCharC_ne_nil (sep : Char) (l : List Char) :
    splitOnCharC sep l ≠ [] := by
  cases l with
  | nil => simp [splitOnCharC]
  | cons c cs =>
    simp only [splitOnCharC]
    by_cases h : c = sep
    · simp [h]
    · simp only [if_neg h]
      rcases hs : splitOnCharC sep cs with _ | ⟨x, xs⟩ <;> simp

theorem splitOnCharC_of_not_mem {sep : Char} {l : List Char} (h : sep ∉ l) :
    splitOnCharC sep l = [l] := by
  induction l with
  | nil => rfl
  | cons c cs ih =>
    have hc : c ≠ sep := fun hc => h (hc ▸ List.mem_cons_self c cs)
    have hcs : sep ∉ cs := fun hm => h (List.mem_cons_of_mem c hm)
    simp only [splitOnCharC, if_neg hc, ih hcs]

theorem splitOnCharC_append_sep {sep : Char} {x rest : List Char} (hx : sep ∉ x) :
    splitOnCharC sep (x ++ sep :: rest) = x :: splitOnCharC sep rest := by
  induction x with
  | nil => simp [splitOnCharC]
  | cons c cs ih =>
    have hc : c ≠ sep := fun hc => hx (hc ▸ List.mem_cons_self c cs)
    have hcs : sep ∉ cs := fun hm => hx (List.mem_cons_of_mem c hm)
    simp only [List.cons_append, splitOnCharC, if_neg hc, List.append_eq]
    rw [ih hcs]

theorem joinCommaC_cons_cons (s t : List Char) (r : List (List Char)) :
    joinCommaC (s :: t :: r) = s ++ ',' :: joinCommaC (t :: r) := rfl

theorem splitOnCharC_joinCommaC {parts : List (List Char)} (hne : parts ≠ [])
    (hcl : ∀ p ∈ parts, (',' : Char) ∉ p) :
    splitOnCharC ',' (joinCommaC parts) = parts := by
  induction parts with
  | nil => exact absurd rfl hne
  | cons p ps ih =>
    cases ps with
    | nil =>
      exact splitOnCharC_of_not_mem (hcl p (List.mem_cons_self p []))
    | cons t r =>
      rw [joinCommaC_cons_cons,
        splitOnCharC_append_sep (hcl p (List.mem_cons_self p _)),
        ih (by simp) (fun x hx => hcl x (List.mem_cons_of_mem p hx))]

theorem parseAllFloats_map {α : Type} (fmt : α → List Char) (toQ : α → ℚ)
    (l : List α) (h : ∀ x ∈ l, parseFloatC (fmt x) = some (toQ x)) :
    parseAllFloats (l.map fmt) = some (l.map toQ) := by
  induction l with
  | nil => rfl
  | cons x xs ih =>
    simp only [List.map_cons, parseAllFloats,
      h x (List.mem_cons_self x xs),
      ih (fun y hy => h y (List.mem_cons_of_mem x hy))]

theorem mem_formatFloatC {k : ℕ} {q : ℚ} {c : Char} (hc : c ∈ formatFloatC k q) :
    c = '-' ∨ c = '.' ∨ ∃ d, d < 10 ∧ c = Nat.digitChar d := by
  simp only [formatFloatC, List.mem_append, List.mem_cons] at hc
  rcases hc with (hc | hc) | hc | hc
  · left
    by_cases h : q.num < 0 <;> simp [h] at hc
    exact hc
  · exact Or.inr (Or.inr (natDigits_chars _ c hc))
  · exact Or.inr (Or.inl hc)
  · exact Or.inr (Or.inr (fracDigitsList_chars _ _ c hc))

theorem comma_not_mem_formatFloatC (k : ℕ) (q : ℚ) :
    (',' : Char) ∉ formatFloatC k q := by
  intro hc
  rcases mem_formatFloatC hc with h | h | ⟨d, hd, h⟩
  · exact absurd h (by decide)
  · exact absurd h (by decide)
  · exact (digitChar_props hd).2.1 h.symm

theorem formatFloatC_ne_nil (k : ℕ) (q : ℚ) : formatFloatC k q ≠ [] := by
  simp only [formatFloatC]
  intro h
  rcases List.append_eq_nil.mp h with ⟨h1, h2⟩
  rcases List.append_eq_nil.mp h1 with ⟨-, h3⟩
  exact natDigits_ne_nil _ h3

/-! ## Round-trip of the fixed-point rendering -/

theorem rheDiv_mul (a : ℕ) {d : ℕ} (hd : 0 < d) : rheDiv (a * d) d = a := by
  have hf : a * d / d = a := Nat.mul_div_cancel a hd
  have hr : a * d % d = 0 := Nat.mul_mod_left a d
  simp only [rheDiv, hf, hr]
  rw [if_neg (by omega : ¬ d < 2 * 0), if_pos (by omega : 2 * 0 < d)]

theorem num_mul_eq {q : ℚ} {n : ℤ} {k : ℕ} (h : q = (n : ℚ) / 10 ^ k) :
    q.num * 10 ^ k = n * q.den := by
  have hd : ((q.den : ℚ)) ≠ 0 := by
    exact_mod_cast q.den_nz
  have h10 : ((10 : ℚ)) ^ k ≠ 0 := by positivity
  have hq : (q.num : ℚ) / (q.den : ℚ) = (n : ℚ) / 10 ^ k := by
    rw [Rat.num_div_den q]
    exact h
  rw [div_eq_div_iff hd h10] at hq
  exact_mod_cast hq

theorem num_neg_iff_of_cross {q : ℚ} {n : ℤ} {k : ℕ}
    (h : q.num * 10 ^ k = n * q.den) : q.num < 0 ↔ n < 0 := by
  have hd : (0 : ℤ) < (q.den : ℤ) := by exact_mod_cast q.pos
  have h10 : (0 : ℤ) < 10 ^ k := by positivity
  constructor
  · intro h1
    by_contra h2
    push_neg at h2
    have hge : 0 ≤ n * (q.den : ℤ) := mul_nonneg h2 hd.le
    have hlt : q.num * 10 ^ k < 0 := mul_neg_of_neg_of_pos h1 h10
    omega
  · intro h1
    by_contra h2
    push_neg at h2
    have hge : 0 ≤ q.num * 10 ^ k := mul_nonneg h2 h10.le
    have hlt : n * (q.den : ℤ) < 0 := mul_neg_of_neg_of_pos h1 hd
    omega

theorem parseUFloatC_body {k : ℕ} (hk : k ≠ 0) (A : ℕ) :
    parseUFloatC (natDigits (A / 10 ^ k) ++ '.' :: fracDigitsList k (A % 10 ^ k)) =
      some ((A : ℚ) / 10 ^ k) := by
  have hpow : 0 < 10 ^ k := Nat.pos_pow_of_pos k (by omega)
  have hdot_int : ('.' : Char) ∉ natDigits (A / 10 ^ k) := by
    intro hc
    obtain ⟨d, hd10, hdc⟩ := natDigits_chars _ '.' hc
    exact (digitChar_props hd10).1 hdc.symm
  have hdot_frac : ('.' : Char) ∉ fracDigitsList k (A % 10 ^ k) := by
    intro hc
    obtain ⟨d, hd10, hdc⟩ := fracDigitsList_chars _ _ '.' hc
    exact (digitChar_props hd10).1 hdc.symm
  have hsplit := @splitOnCharC_append_sep '.' (natDigits (A / 10 ^ k))
    (fracDigitsList k (A % 10 ^ k)) hdot_int
  rw [splitOnCharC_of_not_mem hdot_frac] at hsplit
  have hfrac_ne : fracDigitsList k (A % 10 ^ k) ≠ [] := by
    intro hnil
    have := fracDigitsList_length k (A % 10 ^ k)
    rw [hnil] at this
    exact hk this.symm
  simp only [parseUFloatC, hsplit]
  rw [if_neg (by push_neg; exact ⟨natDigits_ne_nil _, hfrac_ne⟩)]
  rw [natDigits_val, fracDigitsList_val (Nat.mod_lt A hpow) 0]
  simp only [Nat.zero_mul, Nat.zero_add]
  rw [fracDigitsList_length]
  congr 1
  have h10 : ((10 : ℚ)) ^ k ≠ 0 := by positivity
  field_simp
  exact_mod_cast (by rw [Nat.mul_comm]; exact Nat.div_add_mod A (10 ^ k) :
    A / 10 ^ k * 10 ^ k + A % 10 ^ k = A)

theorem parseFloatC_neg (l : List Char) :
    parseFloatC ('-' :: l) = (parseUFloatC l).map (fun q => -q) := by
  simp [parseFloatC]

theorem parseFloatC_formatFloatC {k : ℕ} (hk : k ≠ 0) (n : ℤ) (q : ℚ)
    (hq : q = (n : ℚ) / 10 ^ k) :
    parseFloatC (formatFloatC k q) = some q := by
  have hcross := num_mul_eq hq
  have hd : 0 < q.den := q.pos
  have hN : q.num.natAbs * 10 ^ k = n.natAbs * q.den := by
    have h1 := congrArg Int.natAbs hcross
    simpa [Int.natAbs_mul, Int.natAbs_pow] using h1
  have hm : rheDiv (q.num.natAbs * 10 ^ k) q.den = n.natAbs := by
    rw [hN]
    exact rheDiv_mul n.natAbs hd
  have hsign := num_neg_iff_of_cross hcross
  by_cases hneg : q.num < 0
  · have hn : n < 0 := hsign.mp hneg
    have hcast : ((n.natAbs : ℕ) : ℚ) = -(n : ℚ) := by
      push_cast [Int.cast_natAbs]
      exact abs_of_nonpos (by exact_mod_cast hn.le : (n : ℚ) ≤ 0)
    have hbody : formatFloatC k q =
        '-' :: (natDigits (n.natAbs / 10 ^ k) ++
          '.' :: fracDigitsList k (n.natAbs % 10 ^ k)) := by
      simp only [formatFloatC, hm]
      rw [if_pos hneg]
      rfl
    rw [hbody, parseFloatC_neg, parseUFloatC_body hk, Option.map_some']
    rw [hq]
    congr 1
    rw [hcast]
    ring
  · have hn : ¬ n < 0 := fun h => hneg (hsign.mpr h)
    have hcast : ((n.natAbs : ℕ) : ℚ) = (n : ℚ) := by
      push_cast [Int.cast_natAbs]
      exact abs_of_nonneg (by exact_mod_cast (by omega : (0 : ℤ) ≤ n) : (0 : ℚ) ≤ (n : ℚ))
    have hbody : formatFloatC k q =
        natDigits (n.natAbs / 10 ^ k) ++
          '.' :: fracDigitsList k (n.natAbs % 10 ^ k) := by
      simp only [formatFloatC, hm]
      rw [if_neg hneg]
      rfl
    rw [hbody]
    obtain ⟨a, t, hnd⟩ := List.exists_cons_of_ne_nil (natDigits_ne_nil (n.natAbs / 10 ^ k))
    have hamem : a ∈ natDigits (n.natAbs / 10 ^ k) := by
      rw [hnd]; exact List.mem_cons_self a t
    obtain ⟨d, hd10, hdc⟩ := natDigits_chars _ a hamem
    have hane : a ≠ '-' := hdc ▸ (digitChar_props hd10).2.2.1
    have hhead : (natDigits (n.natAbs / 10 ^ k) ++
        '.' :: fracDigitsList k (n.natAbs % 10 ^ k)).head? = some a := by
      rw [hnd]; rfl
    simp only [parseFloatC, hhead]
    rw [if_neg (by simp [hane])]
    rw [parseUFloatC_body hk]
    rw [hcast, hq]

/-! ## Last-character lemmas for the wire-format invariant -/

theorem getLast?_append_right {α : Type} (l₁ : List α) {l₂ : List α} (h : l₂ ≠ []) :
    (l₁ ++ l₂).getLast? = l₂.getLast? := by
  rw [List.getLast?_append]
  rcases hl : l₂.getLast? with _ | a
  · exact absurd (List.getLast?_eq_none_iff.mp hl) h
  · rfl

theorem formatIntC_getLast (i : ℤ) :
    (formatIntC i).getLast? = some (Nat.digitChar (i.natAbs % 10)) := by
  unfold formatIntC
  rw [getLast?_append_right _ (natDigits_ne_nil _)]
  exact natDigits_getLast _

theorem formatIntC_ne_nil (i : ℤ) : formatIntC i ≠ [] := by
  unfold formatIntC
  intro h
  exact natDigits_ne_nil _ (List.append_eq_nil.mp h).2

theorem fracDigitsList_ne_nil (k m : ℕ) : fracDigitsList (k + 1) m ≠ [] := by
  simp [fracDigitsList]

theorem formatFloatC_getLast {k : ℕ} (hk : k ≠ 0) (q : ℚ) :
    ∃ d, d < 10 ∧ (formatFloatC k q).getLast? = some (Nat.digitChar d) := by
  obtain ⟨j, rfl⟩ : ∃ j, k = j + 1 := ⟨k - 1, by omega⟩
  refine ⟨rheDiv (q.num.natAbs * 10 ^ (j + 1)) q.den % 10 ^ (j + 1) % 10,
    Nat.mod_lt _ (by omega), ?_⟩
  unfold formatFloatC
  rw [getLast?_append_right _ (by simp :
    ('.' :: fracDigitsList (j + 1)
      (rheDiv (q.num.natAbs * 10 ^ (j + 1)) q.den % 10 ^ (j + 1))) ≠ [])]
  rw [show ('.' :: fracDigitsList (j + 1)
      (rheDiv (q.num.natAbs * 10 ^ (j + 1)) q.den % 10 ^ (j + 1))) =
    ['.'] ++ fracDigitsList (j + 1)
      (rheDiv (q.num.natAbs * 10 ^ (j + 1)) q.den % 10 ^ (j + 1)) from rfl]
  rw [getLast?_append_right _ (fracDigitsList_ne_nil _ _)]
  exact fracDigitsList_getLast _ _

theorem notQuery_append_formatInt (pre : String) (i : ℤ) :
    ¬ isQueryStr (pre ++ formatInt i) := by
  unfold isQueryStr
  rw [String.data_append]
  show ((pre.data ++ formatIntC i).getLast? = some '?') → False
  rw [getLast?_append_right _ (formatIntC_ne_nil i), formatIntC_getLast]
  intro h
  exact (digitChar_props (Nat.mod_lt _ (by omega))).2.2.2.1 (Option.some.inj h)

theorem notQuery_append_formatFloatC {k : ℕ} (hk : k ≠ 0) (pre : String) (q : ℚ) :
    ¬ isQueryStr (pre ++ (⟨formatFloatC k q⟩ : String)) := by
  unfold isQueryStr
  rw [String.data_append]
  show ((pre.data ++ formatFloatC k q).getLast? = some '?') → False
  obtain ⟨d, hd, hlast⟩ := formatFloatC_getLast hk q
  rw [getLast?_append_right _ (formatFloatC_ne_nil k q), hlast]
  intro h
  exact (digitChar_props hd).2.2.2.1 (Option.some.inj h)

theorem notQuery_append_of (pre v : String) (hpre : ¬ isQueryStr pre)
    (hv : ¬ isQueryStr v) : ¬ isQueryStr (pre ++ v) := by
  unfold isQueryStr at *
  rw [String.data_append]
  by_cases h : v.data = []
  · rw [h, List.append_nil]
    exact hpre
  · rw [getLast?_append_right _ h]
    exact hv

theorem joinCommaC_ne_nil {p : List Char} (hp : p ≠ []) (ps : List (List Char)) :
    joinCommaC (p :: ps) ≠ [] := by
  cases ps with
  | nil => simpa [joinCommaC] using hp
  | cons t r => simp [joinCommaC_cons_cons]

theorem joinCommaC_getLast {parts : List (List Char)}
    (h : ∀ p ∈ parts, p ≠ [] ∧ ∃ d, d < 10 ∧ p.getLast? = some (Nat.digitChar d)) :
    joinCommaC parts = [] ∨
      ∃ d, d < 10 ∧ (joinCommaC parts).getLast? = some (Nat.digitChar d) := by
  induction parts with
  | nil => exact Or.inl rfl
  | cons p ps ih =>
    right
    cases ps with
    | nil => exact (h p (List.mem_cons_self p [])).2
    | cons t r =>
      have ht := h t (List.mem_cons_of_mem p (List.mem_cons_self t r))
      obtain (hjoin | ⟨d, hd, hlast⟩) := ih (fun x hx => h x (List.mem_cons_of_mem p hx))
      · exact absurd hjoin (joinCommaC_ne_nil ht.1 r)
      · refine ⟨d, hd, ?_⟩
        rw [joinCommaC_cons_cons, getLast?_append_right _ (by simp)]
        rw [show (',' :: joinCommaC (t :: r)) = [','] ++ joinCommaC (t :: r) from rfl]
        rw [getLast?_append_right _ (joinCommaC_ne_nil ht.1 r), hlast]

theorem float_list_not_query (l : List ℚ) : ¬ isQueryStr (_format_float_list l) := by
  unfold isQueryStr
  show ((joinCommaC (l.map (formatFloatC 2))).getLast? = some '?') → False
  have h : ∀ p ∈ l.map (formatFloatC 2), p ≠ [] ∧
      ∃ d, d < 10 ∧ p.getLast? = some (Nat.digitChar d) := by
    intro p hp
    obtain ⟨x, -, rfl⟩ := List.mem_map.mp hp
    exact ⟨formatFloatC_ne_nil 2 x, formatFloatC_getLast two_ne_zero x⟩
  rcases joinCommaC_getLast h with hnil | ⟨d, hd, hlast⟩
  · rw [hnil]
    intro hc
    exact Option.noConfusion hc
  · rw [hlast]
    intro hc
    exact (digitChar_props hd).2.2.2.1 (Option.some.inj hc)

/-! ## Claim theorems -/

/-- C1 counterexample: the `rs232` bootstrap's second phase performs no
verification at all.  The complete list of strings it ever writes is the
two buffer-clearing newlines and the baud-change directive: no written
line contains `?` (so no query reads back the active baud rate, and
nothing is compared), no status-clear directive is sent, and the result is
unconditionally the live transport, never the negotiation-failure
outcome. -/
theorem c1_counterexample :
    writesOf rs232Trace = ["\n", ":SYSTem:COMMunicate:SERial:BAUD 9600\n", "\n"] ∧
    ("\n" : String).data.contains '?' = false ∧
    (":SYSTem:COMMunicate:SERial:BAUD 9600\n" : String).data.contains '?' = false ∧
    rs232Result = RS232Result.transport 9600 ∧
    isNegotiationFailed rs232Result = false := by decide

/-- C1 (amended): after the probe phase the transport is re-opened at the
target baud rate 9600 with the same zero timeout and a newline is written
to clear the buffer; no status-clear directive is sent, no query reads
back the active baud rate, and the live transport is returned
unconditionally — there is no comparison and no negotiation-failure
outcome on any path. -/
theorem c1_amended :
    rs232Trace.drop 4 = [SerialEvent.openPort 9600 0, SerialEvent.write "\n"] ∧
    (∀ s ∈ writesOf rs232Trace, ¬ isQueryStr s) ∧
    rs232Result = RS232Result.transport 9600 ∧
    isNegotiationFailed rs232Result = false := by decide

/-- C2: the probe phase opens the port at the factory-default rate 2400
with a zero (non-blocking) timeout, writes a newline and then the
baud-change directive for the target rate 9600 as raw unchecked writes
(no error-queue query and no read follows them — no written line in the
probe is a query), and closes the probe session; only then does the
second phase open the port at 9600. -/
theorem c2_probe_phase :
    rs232Trace.take 4 =
      [SerialEvent.openPort 2400 0, SerialEvent.write "\n",
       SerialEvent.write ":SYSTem:COMMunicate:SERial:BAUD 9600\n",
       SerialEvent.closePort] ∧
    (∀ s ∈ writesOf (rs232Trace.take 4), ¬ isQueryStr s ∧ ('?' : Char) ∉ s.data) ∧
    rs232Trace.drop 4 = [SerialEvent.openPort 9600 0, SerialEvent.write "\n"] := by decide

/-- C3: at every point of the `rs232` bootstrap at most one serial handle
is open; the handle opened at 2400 baud is closed (no handle is live)
before the 9600-baud open happens, and the two sessions use distinct
handles (the probe handle 0 and the final handle 1 are never live
together — ownership is never shared). -/
theorem c3_single_handle :
    (∀ k : ℕ, (liveHandles (rs232Trace.take k)).length ≤ 1) ∧
    liveHandles (rs232Trace.take 4) = [] ∧
    rs232Trace.drop 4 = [SerialEvent.openPort 9600 0, SerialEvent.write "\n"] ∧
    liveHandles rs232Trace = [1] ∧
    (∀ k : ℕ, ¬ (0 ∈ liveHandles (rs232Trace.take k) ∧
      1 ∈ liveHandles (rs232Trace.take k))) := by
  refine ⟨?_, by decide, by decide, by decide, ?_⟩
  · intro k
    rcases Nat.lt_or_ge k 6 with hk | hk
    · interval_cases k <;> decide
    · rw [List.take_of_length_le (by exact hk)]
      decide
  · intro k
    rcases Nat.lt_or_ge k 6 with hk | hk
    · interval_cases k <;> decide
    · rw [List.take_of_length_le (by exact hk)]
      decide

/-- C4: for every engine state and every timeout value, `set_timeout`
returns the `command_timeout` in force before the call, replaces
`command_timeout` with the new value for subsequent operations, leaves the
default pre-query wait unchanged, and calling `set_timeout` again with the
returned value restores the original state exactly. -/
theorem c4_set_timeout (s : ScpiState) (t : ℚ) :
    (set_timeout s t).1 = s.command_timeout ∧
    (set_timeout s t).2.command_timeout = t ∧
    (set_timeout s t).2.ask_default_wait = s.ask_default_wait ∧
    (set_timeout (set_timeout s t).2 (set_timeout s t).1).2 = s := by
  refine ⟨rfl, rfl, rfl, ?_⟩
  cases s
  rfl

/-- C5: the float-with-off shape encodes the absent value only as the
token `OFF`: `set_ber_unused_ts_power None` issues exactly
`CONF:BER:POWer:UNUSed OFF`, and for every numeric power the directive is
the same prefix followed by the `%.1f` rendering — whose characters end in
a dot followed by exactly one digit (with no other dot) — and is never the
`OFF` directive, so `OFF` is never a sentinel number and a number is never
the absent-value marker. -/
theorem c5_unused_ts_power :
    set_ber_unused_ts_power none = "CONF:BER:POWer:UNUSed OFF" ∧
    ∀ p : ℚ,
      set_ber_unused_ts_power (some p) = "CONF:BER:POWer:UNUSed " ++ formatFloat1 p ∧
      (∃ pre d, d < 10 ∧ (formatFloat1 p).data = pre ++ ['.', Nat.digitChar d] ∧
        ('.' : Char) ∉ pre) ∧
      set_ber_unused_ts_power (some p) ≠ set_ber_unused_ts_power none := by
  refine ⟨rfl, fun p => ⟨rfl, ?_, ?_⟩⟩
  · refine ⟨(if p.num < 0 then ['-'] else []) ++
      natDigits (rheDiv (p.num.natAbs * 10 ^ 1) p.den / 10 ^ 1),
      rheDiv (p.num.natAbs * 10 ^ 1) p.den % 10 ^ 1 % 10,
      Nat.mod_lt _ (by omega), ?_, ?_⟩
    · rfl
    · intro hc
      rcases List.mem_append.mp hc with hc | hc
      · by_cases h : p.num < 0 <;> simp [h] at hc
      · obtain ⟨d', hd', hdc⟩ := natDigits_chars _ '.' hc
        exact (digitChar_props hd').1 hdc.symm
  · intro heq
    have h2 : (set_ber_unused_ts_power (some p)).data =
        (set_ber_unused_ts_power none).data := congrArg String.data heq
    rw [show set_ber_unused_ts_power (some p) =
      "CONF:BER:POWer:UNUSed " ++ formatFloat1 p from rfl] at h2
    rw [show set_ber_unused_ts_power none =
      "CONF:BER:POWer:UNUSed " ++ "OFF" from by decide] at h2
    rw [String.data_append, String.data_append] at h2
    have h3 : (formatFloat1 p).data = ("OFF" : String).data :=
      List.append_cancel_left h2
    obtain ⟨d, hd, hlast⟩ := formatFloatC_getLast one_ne_zero p
    rw [show (formatFloat1 p).data = formatFloatC 1 p from rfl] at h3
    rw [h3] at hlast
    have h4 : (("OFF" : String).data).getLast? = some 'F' := by decide
    rw [h4] at hlast
    exact (digitChar_props hd).2.2.2.2.1 (Option.some.inj hlast).symm

/-- C7: the boolean wire encoding maps true to exactly `ON` and false to
exactly `OFF` and nothing else, and it is the inverse of the boolean parse
table (`ON` gives true, `OFF` gives false, anything else is a parse
error). -/
theorem c7_onoff :
    (∀ b : Bool, (_format_onoff b = "ON" ∨ _format_onoff b = "OFF") ∧
      parse_bool (_format_onoff b) = some b) ∧
    parse_bool "ON" = some true ∧ parse_bool "OFF" = some false ∧
    ∀ s : String, s ≠ "ON" → s ≠ "OFF" → parse_bool s = none := by
  refine ⟨fun b => ?_, by decide, by decide, fun s h1 h2 => ?_⟩
  · cases b
    · exact ⟨Or.inr rfl, by decide⟩
    · exact ⟨Or.inl rfl, by decide⟩
  · simp [parse_bool, h1, h2]

/-- C7 witness: the boolean encodings round-trip at concrete values and a
concrete foreign token is rejected by the parser. -/
theorem c7_onoff_witness :
    parse_bool (_format_onoff true) = some true ∧ parse_bool "MAYBE" = none :=
  ⟨(c7_onoff.1 true).2, c7_onoff.2.2.2 "MAYBE" (by decide) (by decide)⟩

/-- C9: `make_io_str` and `parse_io_str` round-trip on arguments in
`{0, 1}`, `make_io_str` yields no string when either argument is outside
`{0, 1}`, and `parse_io_str` returns `None` (without error) on every
string whose length differs from 4. -/
theorem c9_io_str :
    (∀ i o : ℤ, i ∈ ([0, 1] : List ℤ) → o ∈ ([0, 1] : List ℤ) →
      ∃ s, make_io_str i o = some s ∧ parse_io_str s = Except.ok (some [i, o])) ∧
    (∀ i o : ℤ, (i ∉ ([0, 1] : List ℤ) ∨ o ∉ ([0, 1] : List ℤ)) →
      make_io_str i o = none) ∧
    (∀ s : String, s.data.length ≠ 4 → parse_io_str s = Except.ok none) := by
  refine ⟨?_, ?_, ?_⟩
  · intro i o hi ho
    simp only [List.mem_cons, List.mem_singleton, List.not_mem_nil, or_false] at hi ho
    rcases hi with rfl | rfl <;> rcases ho with rfl | rfl
    · exact ⟨"I0O0", by decide, rfl⟩
    · exact ⟨"I0O1", by decide, rfl⟩
    · exact ⟨"I1O0", by decide, rfl⟩
    · exact ⟨"I1O1", by decide, rfl⟩
  · intro i o h
    simp only [make_io_str, if_pos h]
  · intro s h
    simp only [parse_io_str, if_pos h]

/-- C9 witness: the round trip, the out-of-range rejection and the
length guard at concrete inputs, through the main theorem. -/
theorem c9_io_str_witness :
    (∃ s, make_io_str 1 0 = some s ∧ parse_io_str s = Except.ok (some [1, 0])) ∧
    make_io_str 2 0 = none ∧ parse_io_str "HELLO" = Except.ok none :=
  ⟨c9_io_str.1 1 0 (by decide) (by decide),
   c9_io_str.2.1 2 0 (Or.inl (by decide)),
   c9_io_str.2.2 "HELLO" (by decide)⟩

/-- C10: `_switch_to_x` always queries the current test mode first; when
the instrument already reports the target mode it sends no mode-change
directive at all; otherwise it sends the target-mode directive last,
preceded by a `NONE` directive exactly when the current mode is not
already `NONE` — so never more than two directives. -/
theorem c10_switch_to_x (cur mode : String) :
    (cur = mode → switch_to_x_trace cur mode = [ScpiOp.ask "PROCedure:SEL?"]) ∧
    (cur ≠ mode → cur = "NONE" →
      switch_to_x_trace cur mode =
        [ScpiOp.ask "PROCedure:SEL?", ScpiOp.send (set_test_mode_cmd mode)]) ∧
    (cur ≠ mode → cur ≠ "NONE" →
      switch_to_x_trace cur mode =
        [ScpiOp.ask "PROCedure:SEL?", ScpiOp.send (set_test_mode_cmd "NONE"),
         ScpiOp.send (set_test_mode_cmd mode)]) := by
  refine ⟨fun h => ?_, fun h hn => ?_, fun h hn => ?_⟩
  · simp [switch_to_x_trace, h]
  · subst hn
    simp [switch_to_x_trace, h]
  · simp [switch_to_x_trace, h, hn]

/-- C10 witness: the three behaviours at concrete modes, through the main
theorem. -/
theorem c10_switch_to_x_witness :
    switch_to_x_trace "MOD" "MOD" = [ScpiOp.ask "PROCedure:SEL?"] ∧
    switch_to_x_trace "NONE" "MOD" =
      [ScpiOp.ask "PROCedure:SEL?", ScpiOp.send (set_test_mode_cmd "MOD")] ∧
    switch_to_x_trace "BAN" "MOD" =
      [ScpiOp.ask "PROCedure:SEL?", ScpiOp.send (set_test_mode_cmd "NONE"),
       ScpiOp.send (set_test_mode_cmd "MOD")] :=
  ⟨(c10_switch_to_x "MOD" "MOD").1 rfl,
   (c10_switch_to_x "NONE" "MOD").2.1 (by decide) rfl,
   (c10_switch_to_x "BAN" "MOD").2.2 (by decide) (by decide)⟩

/-- C1 amended witness: a concrete written line of the bootstrap is not a
query, through the amended theorem. -/
theorem c1_amended_witness : ¬ isQueryStr "\n" :=
  c1_amended.2.1 "\n" (by decide)

/-- C2 witness: the baud-change directive written during the probe phase
is not a query, through the main theorem. -/
theorem c2_probe_phase_witness :
    ¬ isQueryStr ":SYSTem:COMMunicate:SERial:BAUD 9600\n" :=
  (c2_probe_phase.2.1 ":SYSTem:COMMunicate:SERial:BAUD 9600\n" (by decide)).1

/-- C3 witness: at the end of the full bootstrap trace the probe handle
and the final handle are not live together, through the main theorem. -/
theorem c3_single_handle_witness :
    ¬ (0 ∈ liveHandles (rs232Trace.take 6) ∧
      1 ∈ liveHandles (rs232Trace.take 6)) :=
  c3_single_handle.2.2.2.2 6

/-- C4 witness: `set_timeout` at the concrete initial state, through the
main theorem. -/
theorem c4_set_timeout_witness :
    (set_timeout ⟨60, 0⟩ 10).1 = 60 ∧
    (set_timeout ⟨60, 0⟩ 10).2.command_timeout = 10 :=
  ⟨(c4_set_timeout ⟨60, 0⟩ 10).1, (c4_set_timeout ⟨60, 0⟩ 10).2.1⟩

/-- C5 witness: the directive for a concrete numeric power is the `%.1f`
form and differs from the `OFF` directive, through the main theorem. -/
theorem c5_unused_ts_power_witness :
    set_ber_unused_ts_power (some 5) = "CONF:BER:POWer:UNUSed " ++ formatFloat1 5 ∧
    set_ber_unused_ts_power (some 5) ≠ set_ber_unused_ts_power none :=
  ⟨(c5_unused_ts_power.2 5).1, (c5_unused_ts_power.2 5).2.2⟩

/-- C6: the float-list wire encoding joins the two-decimal renderings with
commas: `[1.0, 2.0, 3.0]` formats to `1.00,2.00,3.00` and the empty list
to the empty string, and for every list of values exactly representable at
two decimal places the list parser returns the original list from the
formatted string (round-trip law). -/
theorem c6_float_list_roundtrip :
    _format_float_list [1, 2, 3] = "1.00,2.00,3.00" ∧
    _format_float_list [] = "" ∧
    ∀ l : List ℚ, (∀ x ∈ l, ∃ n : ℤ, x = (n : ℚ) / 100) →
      parse_float_list (_format_float_list l) = some l := by
  refine ⟨by decide, by decide, ?_⟩
  intro l hl
  have hparse : ∀ x ∈ l, parseFloatC (formatFloatC 2 x) = some x := by
    intro x hx
    obtain ⟨n, hn⟩ := hl x hx
    exact parseFloatC_formatFloatC two_ne_zero n x (by rw [hn]; norm_num)
  cases l with
  | nil => decide
  | cons x xs =>
    have hne : joinCommaC ((x :: xs).map (formatFloatC 2)) ≠ [] := by
      rw [List.map_cons]
      exact joinCommaC_ne_nil (formatFloatC_ne_nil 2 x) _
    unfold parse_float_list
    rw [if_neg (by exact hne)]
    rw [show (_format_float_list (x :: xs)).data =
      joinCommaC ((x :: xs).map (formatFloatC 2)) from rfl]
    rw [splitOnCharC_joinCommaC (by simp) (fun p hp => by
      obtain ⟨y, -, rfl⟩ := List.mem_map.mp hp
      exact comma_not_mem_formatFloatC 2 y)]
    have hall := parseAllFloats_map (formatFloatC 2) id (x :: xs)
      (fun y hy => hparse y hy)
    simpa using hall

/-- C6 witness: the round trip at the concrete list `[1, 2, 3]`, through
the main theorem. -/
theorem c6_float_list_roundtrip_witness :
    parse_float_list (_format_float_list [1, 2, 3]) = some [1, 2, 3] :=
  c6_float_list_roundtrip.2.2 [1, 2, 3] (by
    intro x hx
    fin_cases hx
    · exact ⟨100, by norm_num⟩
    · exact ⟨200, by norm_num⟩
    · exact ⟨300, by norm_num⟩)

/-- C8: queries and directives are syntactically disjoint on the wire.
Every command string the driver's `ask_` / `read_` / `fetch_` methods pass
to an `ask_*` engine operation ends in `?`; and no command string built by
a `set_` or action method for `send_command` ends in `?` — for the
`%s`-substituted directives under the assumption that the supplied token
does not itself end in `?` (the documented tokens are alphanumeric). -/
theorem c8_query_directive_disjoint :
    (∀ q ∈ askCommands, isQueryStr q) ∧
    (∀ v : String, ¬ isQueryStr v → ¬ isQueryStr (set_io_used_cmd v)) ∧
    (∀ v : String, ¬ isQueryStr v → ¬ isQueryStr (set_network_type_cmd v)) ∧
    (∀ v : String, ¬ isQueryStr v → ¬ isQueryStr (set_bts_tch_mode_cmd v)) ∧
    (∀ v : String, ¬ isQueryStr v → ¬ isQueryStr (set_bts_tch_input_bandwidth_cmd v)) ∧
    (∀ v : String, ¬ isQueryStr v → ¬ isQueryStr (set_ban_input_bandwidth_cmd v)) ∧
    (∀ v : String, ¬ isQueryStr v → ¬ isQueryStr (set_ban_trigger_mode_cmd v)) ∧
    (∀ v : String, ¬ isQueryStr v → ¬ isQueryStr (set_test_mode_cmd v)) ∧
    (∀ v : String, ¬ isQueryStr v → ¬ isQueryStr (set_sync_state_cmd v)) ∧
    (∀ v : String, ¬ isQueryStr v → ¬ isQueryStr (set_ber_abort_cond_cmd v)) ∧
    (∀ v : String, ¬ isQueryStr v → ¬ isQueryStr (set_phase_decoding_mode_cmd v)) ∧
    (∀ i : ℤ, ¬ isQueryStr (set_bts_ccch_arfcn_cmd i)) ∧
    (∀ i : ℤ, ¬ isQueryStr (set_bts_tch_arfcn_cmd i)) ∧
    (∀ i : ℤ, ¬ isQueryStr (set_bts_tch_ts_cmd i)) ∧
    (∀ i : ℤ, ¬ isQueryStr (set_bts_tsc_cmd i)) ∧
    (∀ i : ℤ, ¬ isQueryStr (set_bts_tch_timing_cmd i)) ∧
    (∀ i : ℤ, ¬ isQueryStr (set_ban_arfcn_cmd i)) ∧
    (∀ i : ℤ, ¬ isQueryStr (set_ban_tsc_cmd i)) ∧
    (∀ i : ℤ, ¬ isQueryStr (set_ber_test_num_cmd i)) ∧
    (∀ i : ℤ, ¬ isQueryStr (set_ber_limit_class_1b_cmd i)) ∧
    (∀ i : ℤ, ¬ isQueryStr (set_ber_limit_class_2_cmd i)) ∧
    (∀ i : ℤ, ¬ isQueryStr (set_ber_limit_erased_frames_cmd i)) ∧
    (∀ i : ℤ, ¬ isQueryStr (set_ber_frames_num_cmd i)) ∧
    (∀ i : ℤ, ¬ isQueryStr (set_spectrum_modulation_burst_num_cmd i)) ∧
    (∀ i : ℤ, ¬ isQueryStr (set_spectrum_switching_burst_num_cmd i)) ∧
    (∀ q : ℚ, ¬ isQueryStr (set_ext_att_rf_in1_cmd q)) ∧
    (∀ q : ℚ, ¬ isQueryStr (set_ext_att_rf_out1_cmd q)) ∧
    (∀ q : ℚ, ¬ isQueryStr (set_ext_att_rf_in2_cmd q)) ∧
    (∀ q : ℚ, ¬ isQueryStr (set_ext_att_rf_out2_cmd q)) ∧
    (∀ q : ℚ, ¬ isQueryStr (set_mod_freq_cmd q)) ∧
    (∀ q : ℚ, ¬ isQueryStr (set_ban_expected_power_cmd q)) ∧
    (∀ q : ℚ, ¬ isQueryStr (set_bts_expected_power_cmd q)) ∧
    (∀ q : ℚ, ¬ isQueryStr (set_bts_tch_tx_power_cmd q)) ∧
    (∀ q : ℚ, ¬ isQueryStr (set_ber_used_ts_power_cmd q)) ∧
    (∀ q : ℚ, ¬ isQueryStr (set_ber_holdoff_time_cmd q)) ∧
    (∀ p : Option ℚ, ¬ isQueryStr (set_ber_unused_ts_power p)) ∧
    (∀ l : List ℚ, ¬ isQueryStr (set_spectrum_modulation_tolerance_abs_cmd l)) ∧
    (∀ l : List ℚ, ¬ isQueryStr (set_spectrum_modulation_tolerance_rel_cmd l)) ∧
    (∀ l : List ℚ, ¬ isQueryStr (set_spectrum_switching_tolerance_abs_cmd l)) ∧
    (∀ l : List ℚ, ¬ isQueryStr (set_spectrum_switching_tolerance_rel_cmd l)) ∧
    (∀ b : Bool, ¬ isQueryStr (set_spectrum_switching_noise_corr_cmd b)) ∧
    ¬ isQueryStr bcch_sync_cmd ∧
    ¬ isQueryStr reset_spectrum_modulation_tolerance_cmd ∧
    ¬ isQueryStr reset_spectrum_switching_tolerance_cmd := by
  refine ⟨by decide,
    fun v hv => notQuery_append_of _ v (by decide) hv,
    fun v hv => notQuery_append_of _ v (by decide) hv,
    fun v hv => notQuery_append_of _ v (by decide) hv,
    fun v hv => notQuery_append_of _ v (by decide) hv,
    fun v hv => notQuery_append_of _ v (by decide) hv,
    fun v hv => notQuery_append_of _ v (by decide) hv,
    fun v hv => notQuery_append_of _ v (by decide) hv,
    fun v hv => notQuery_append_of _ v (by decide) hv,
    fun v hv => notQuery_append_of _ v (by decide) hv,
    fun v hv => notQuery_append_of _ v (by decide) hv,
    fun i => notQuery_append_formatInt _ i,
    fun i => notQuery_append_formatInt _ i,
    fun i => notQuery_append_formatInt _ i,
    fun i => notQuery_append_formatInt _ i,
    fun i => notQuery_append_formatInt _ i,
    fun i => notQuery_append_formatInt _ i,
    fun i => notQuery_append_formatInt _ i,
    fun i => notQuery_append_formatInt _ i,
    fun i => notQuery_append_formatInt _ i,
    fun i => notQuery_append_formatInt _ i,
    fun i => notQuery_append_formatInt _ i,
    fun i => notQuery_append_formatInt _ i,
    fun i => notQuery_append_formatInt _ i,
    fun i => notQuery_append_formatInt _ i,
    fun q => notQuery_append_formatFloatC (by decide) _ q,
    fun q => notQuery_append_formatFloatC (by decide) _ q,
    fun q => notQuery_append_formatFloatC (by decide) _ q,
    fun q => notQuery_append_formatFloatC (by decide) _ q,
    fun q => notQuery_append_formatFloatC (by decide) _ q,
    fun q => notQuery_append_formatFloatC (by decide) _ q,
    fun q => notQuery_append_formatFloatC (by decide) _ q,
    fun q => notQuery_append_formatFloatC (by decide) _ q,
    fun q => notQuery_append_formatFloatC (by decide) _ q,
    fun q => notQuery_append_formatFloatC (by decide) _ q,
    ?_,
    fun l => notQuery_append_of _ _ (by decide) (float_list_not_query l),
    fun l => notQuery_append_of _ _ (by decide) (float_list_not_query l),
    fun l => notQuery_append_of _ _ (by decide) (float_list_not_query l),
    fun l => notQuery_append_of _ _ (by decide) (float_list_not_query l),
    fun b => notQuery_append_of _ _ (by decide) (by cases b <;> decide),
    by decide, by decide, by decide⟩
  intro p
  cases p with
  | none => decide
  | some q => exact notQuery_append_formatFloatC one_ne_zero "CONF:BER:POWer:UNUSed " q

/-- C8 witness: a concrete query ends in the query mark and concrete
directives do not, through the main theorem. -/
theorem c8_query_directive_disjoint_witness :
    isQueryStr "ROUTe:IOConnector?" ∧
    ¬ isQueryStr (set_io_used_cmd "I1O1") ∧
    ¬ isQueryStr (set_test_mode_cmd "NONE") ∧
    ¬ isQueryStr (set_bts_ccch_arfcn_cmd 100) := by
  obtain ⟨h1, h2, h3, h4, h5, h6, h7, h8, h9, h10, h11, h12, -⟩ :=
    c8_query_directive_disjoint
  exact ⟨h1 "ROUTe:IOConnector?" (by decide), h2 "I1O1" (by decide),
    h8 "NONE" (by decide), h12 100⟩
